import Mathlib

/-!
Verification of the bcc latency tracer (tools/funcslower.py) and sampling
profiler (tools/profile_slower.py) against their natural-language
specification.  The BPF C fragments and the Python rendering code are
shallowly embedded: BPF hash maps become association lists keyed by the
64-bit thread identity, u64 arithmetic is modelled on Nat with explicit
reduction modulo 2 to the 64, stack ids are signed integers (negative
values are error sentinels), and every host-supplied collaborator
(clock, stack walker, symbolizer) is passed in as an explicit argument.
-/

/-- Modulus of unsigned 64-bit arithmetic. -/
def U64MOD : Nat := 2 ^ 64

/-- u64 subtraction as performed by the BPF program (wraparound). -/
def u64sub (a b : Nat) : Nat := (a % U64MOD + U64MOD - b % U64MOD) % U64MOD

/-- Upper 32 bits of a 64-bit pid_tgid word: the thread group id. -/
def tgidOf (tgid_pid : Nat) : Nat := tgid_pid % U64MOD / 2 ^ 32

/-- Stored value of the BPF hash entryinfo: struct entry_t. -/
structure EntryT where
  id : Nat
  start_ns : Nat
  args : List Nat
deriving DecidableEq, Repr

/-- A BPF hash map from u64 keys, modelled as an association list. -/
abbrev BpfMap (α : Type) := List (Nat × α)

/-- Lookup in a BPF hash map: first binding of the key wins. -/
def mapLookup {α : Type} : BpfMap α → Nat → Option α
  | [], _ => none
  | (k', v) :: rest, k => if k' = k then some v else mapLookup rest k

/-- Deletion from a BPF hash map: all bindings of the key are removed. -/
def mapErase {α : Type} : BpfMap α → Nat → BpfMap α
  | [], _ => []
  | (k', v) :: rest, k =>
    if k' = k then mapErase rest k else (k', v) :: mapErase rest k

/-- Update of a BPF hash map: the new binding replaces any existing one. -/
def mapUpdate {α : Type} (m : BpfMap α) (k : Nat) (v : α) : BpfMap α :=
  (k, v) :: mapErase m k

/-- State of the entryinfo map (pending-call table). -/
abbrev EntryInfo := BpfMap EntryT

/-- Configuration of funcslower derived from its command line. -/
structure FsCfg where
  tgidFilter : Option Nat
  durationNs : Nat
  grabArgs : Bool
  userStack : Bool
  kernelStack : Bool
deriving Repr

/-- TGID_FILTER of funcslower: rejects when a target pid is configured and
the current tgid differs from it, never rejects otherwise. -/
def fs_tgidRejects (cfg : FsCfg) (tgid : Nat) : Bool :=
  match cfg.tgidFilter with
  | some t => decide (tgid ≠ t)
  | none => false

/-- The entry_t record built by trace_entry: probe id, start timestamp and,
only when GRAB_ARGS is defined, the six captured argument registers
(the struct is zero-initialized otherwise). -/
def fs_mkEntry (cfg : FsCfg) (id now : Nat) (argv : List Nat) : EntryT :=
  { id := id, start_ns := now,
    args := if cfg.grabArgs then argv else List.replicate 6 0 }

/-- trace_entry of funcslower: after the tgid filter, stores a fresh
entry_t for the current thread, overwriting any pending one. -/
def fs_trace_entry (cfg : FsCfg) (st : EntryInfo) (tgid_pid id now : Nat)
    (argv : List Nat) : EntryInfo :=
  if fs_tgidRejects cfg (tgidOf tgid_pid) then st
  else mapUpdate st tgid_pid (fs_mkEntry cfg id now argv)

/-- USER_STACK_GET after macro substitution: the real get_stackid result
unless only kernel stacks were requested. -/
def fs_userSid (cfg : FsCfg) (raw : Int) : Int :=
  if cfg.userStack = false ∧ cfg.kernelStack = true then -1 else raw

/-- KERNEL_STACK_GET after macro substitution: forced to -1 whenever user
stacks were requested (the elif chain in the source). -/
def fs_kernelSid (cfg : FsCfg) (raw : Int) : Int :=
  if cfg.userStack then -1 else raw

/-- Kernel instruction-pointer correction shared by both tools: the data
field stays zero unless the kernel stack id is valid and the captured ip
lies strictly above the page_offset boundary. -/
def kernelIpCorrection (ksid : Int) (ip pageOffset : Nat) : Nat :=
  if 0 ≤ ksid then (if pageOffset < ip then ip else 0) else 0

/-- struct data_t: the finalized call record funcslower submits. -/
structure DataT where
  id : Nat
  tgid_pid : Nat
  start_ns : Nat
  duration_ns : Nat
  retval : Nat
  name : String
  user_stack_id : Int
  kernel_stack_id : Int
  kernel_ip : Nat
  args : List Nat
deriving DecidableEq, Repr

/-- trace_return of funcslower: looks up the pending entry for the current
thread (silently done if absent), computes the elapsed time, deletes the
entry, and submits a data_t record only when the elapsed time reaches
DURATION_NS.  Host inputs: current time, return value, raw stack ids,
captured ip, page_offset boundary and current comm. -/
def fs_trace_return (cfg : FsCfg) (st : EntryInfo)
    (tgid_pid now retval : Nat) (userRaw kernelRaw : Int)
    (ip pageOffset : Nat) (comm : String) : EntryInfo × Option DataT :=
  match mapLookup st tgid_pid with
  | none => (st, none)
  | some e =>
    let delta := u64sub now e.start_ns
    let st1 := mapErase st tgid_pid
    if delta < cfg.durationNs then (st1, none)
    else
      let usid := fs_userSid cfg userRaw
      let ksid := fs_kernelSid cfg kernelRaw
      (st1, some { id := e.id, tgid_pid := tgid_pid, start_ns := e.start_ns,
                   duration_ns := delta, retval := retval, name := comm,
                   user_stack_id := usid, kernel_stack_id := ksid,
                   kernel_ip := kernelIpCorrection ksid ip pageOffset,
                   args := e.args })

/-- Folding a sequence of entry events for one thread through trace_entry. -/
def fs_runEntries (cfg : FsCfg) (st : EntryInfo) (tgid_pid : Nat)
    (evs : List (Nat × Nat × List Nat)) : EntryInfo :=
  evs.foldl (fun s e => fs_trace_entry cfg s tgid_pid e.1 e.2.1 e.2.2) st

/-- Configuration of profile_slower derived from its command line. -/
structure PsCfg where
  pidFilter : Option Nat
  userOnly : Bool
  kernelOnly : Bool
  delimited : Bool
  annotate : Bool
deriving Repr

/-- trace_return of profile_slower: finds the pending entry (done if
absent), computes the unused elapsed time and deletes the entry; it never
emits anything. -/
def ps_trace_return (st : EntryInfo) (tgid_pid now : Nat) : EntryInfo :=
  match mapLookup st tgid_pid with
  | none => st
  | some _ => mapErase st tgid_pid

/-- stack_id_err of both tools: a negative stack id other than -EFAULT
(EFAULT = 14) denotes a missed stack that still gets a placeholder. -/
def stack_id_err (sid : Int) : Bool := decide (sid < 0 ∧ sid ≠ -14)

/-- need_delimiter of funcslower: both stack scopes requested. -/
def fs_needDelimiter (cfg : FsCfg) : Bool := cfg.kernelStack && cfg.userStack

/-- aksym: kernel symbolization with an optional annotation suffix. -/
def aksym (annotate : Bool) (ksym : Nat → String) (addr : Nat) : String :=
  if annotate then ksym addr ++ "_[k]" else ksym addr

/-- user_stack as computed at the top of print_stack: empty unless user
stacks were requested and the id is valid, else the walked trace. -/
def fs_userStackOf (cfg : FsCfg) (walk : Nat → List Nat) (e : DataT) :
    List Nat :=
  if cfg.userStack = false ∨ e.user_stack_id < 0 then []
  else walk e.user_stack_id.toNat

/-- kernel_stack as computed by print_stack (kernel_tmp copied over when
kernel stacks were requested and the id is valid). -/
def fs_kernelStackOf (cfg : FsCfg) (walk : Nat → List Nat) (e : DataT) :
    List Nat :=
  if cfg.kernelStack = true ∧ 0 ≤ e.kernel_stack_id then
    (if cfg.kernelStack = false ∨ e.kernel_stack_id < 0 then []
     else walk e.kernel_stack_id.toNat)
  else []

/-- The semicolon-joined fields of one folded line of funcslower:
the thread name, then per requested scope either the symbolized frames in
reversed (outermost-first) order or the literal placeholder token, with a
dash separator only when both ids are valid. -/
def fs_foldedParts (cfg : FsCfg) (walk : Nat → List Nat)
    (sym : Nat → Nat → String) (ksym : Nat → String) (e : DataT) :
    List String :=
  let user_stack := fs_userStackOf cfg walk e
  let kernel_stack := fs_kernelStackOf cfg walk e
  let line := [e.name]
  let line := if cfg.userStack then
      (if stack_id_err e.user_stack_id then line ++ ["[Missed User Stack]"]
       else line ++ (user_stack.reverse.map (fun a => sym a e.tgid_pid)))
    else line
  if cfg.kernelStack then
    (let line := line ++
        (if fs_needDelimiter cfg = true ∧ 0 ≤ e.kernel_stack_id ∧
            0 ≤ e.user_stack_id then ["-"] else [])
     if stack_id_err e.kernel_stack_id then
       line ++ ["[Missed Kernel Stack]"]
     else line ++ (kernel_stack.reverse.map ksym))
  else line

/-- One folded output line of funcslower: the joined fields followed by
the constant count 1. -/
def fs_foldedLine (cfg : FsCfg) (walk : Nat → List Nat)
    (sym : Nat → Nat → String) (ksym : Nat → String) (e : DataT) : String :=
  String.intercalate ";" (fs_foldedParts cfg walk sym ksym e) ++ " " ++
    Nat.repr 1

/-- Left-justified field of a minimum width, as the %-16s directive. -/
def padRight (s : String) (n : Nat) : String :=
  s ++ String.mk (List.replicate (n - s.length) ' ')

/-- The trailing summary line of the multi-line stack output. -/
def fs_summaryLine (e : DataT) : String :=
  "    " ++ padRight "-" 16 ++ " " ++ e.name ++ " (" ++
    Nat.repr e.tgid_pid ++ ")"

/-- The multi-line (tree) stack output of funcslower, one string per
printed line.  The kernel block is emitted only when user stacks were NOT
requested and the user block only when kernel stacks were NOT requested,
exactly as the source conditions read. -/
def fs_treeLines (cfg : FsCfg) (walk : Nat → List Nat)
    (sym : Nat → Nat → String) (ksym : Nat → String) (annotate : Bool)
    (e : DataT) : List String :=
  let user_stack := fs_userStackOf cfg walk e
  let kernel_stack := fs_kernelStackOf cfg walk e
  let kernelBlock :=
    if cfg.userStack = false then
      (if stack_id_err e.kernel_stack_id then ["    [Missed Kernel Stack]"]
       else kernel_stack.map (fun a => "    " ++ aksym annotate ksym a))
    else []
  let userBlock :=
    if cfg.kernelStack = false then
      (if fs_needDelimiter cfg = true ∧ 0 ≤ e.user_stack_id ∧
          0 ≤ e.kernel_stack_id then ["    --"] else []) ++
      (if stack_id_err e.user_stack_id then ["    [Missed User Stack]"]
       else user_stack.map (fun a => "    " ++ sym a e.tgid_pid))
    else []
  kernelBlock ++ userBlock ++ [fs_summaryLine e]

/-- struct key_t of profile_slower: the aggregate key. -/
structure KeyT where
  pid : Nat
  kernel_ip : Nat
  kernel_ret_ip : Nat
  user_stack_id : Int
  kernel_stack_id : Int
  name : String
deriving DecidableEq, Repr

/-- The BPF hash counts, as the association list of key and count. -/
abbrev Counts := List (KeyT × Nat)

/-- counts.lookup_or_init followed by the increment: adds one to the
count of the key, creating it at one when absent. -/
def countsIncr (m : Counts) (k : KeyT) : Counts :=
  match m with
  | [] => [(k, 1)]
  | (k', v) :: rest =>
    if k' = k then (k', v + 1) :: rest else (k', v) :: countsIncr rest k

/-- Total of all aggregate counts. -/
def sumCounts (m : Counts) : Nat := (m.map (fun p => p.2)).sum

/-- DURATION_NS of profile_slower, hardcoded to 1 ms in the source. -/
def psDurationNs : Nat := 1000000

/-- THREAD_FILTER of profile_slower: the tgid must equal the target pid
when one is configured, and the filter is the constant 1 otherwise. -/
def ps_threadFilter (cfg : PsCfg) (pid : Nat) : Bool :=
  match cfg.pidFilter with
  | some p => decide (pid = p)
  | none => true

/-- trace_entry of profile_slower: TGID_FILTER is the constant 0 and
GRAB_ARGS is never defined, so every entry is stored with zeroed args. -/
def ps_trace_entry (st : EntryInfo) (tgid_pid id now : Nat) : EntryInfo :=
  mapUpdate st tgid_pid
    { id := id, start_ns := now, args := List.replicate 6 0 }

/-- One timer tick as delivered by the perf event host: thread identity,
current time, current comm, the raw get_stackid results for the user and
kernel stacks, and the captured instruction pointer. -/
structure Tick where
  tgid_pid : Nat
  now : Nat
  comm : String
  userSidRaw : Int
  kernelSidRaw : Int
  ip : Nat
deriving Repr

/-- do_perf_event of profile_slower: after the thread filter, the tick is
dropped unless the thread has a pending entry at least DURATION_NS old;
otherwise the aggregate key (tgid, comm, stack ids, corrected kernel ip)
is built and its count incremented.  Stack capture never drops a tick:
a failed get_stackid leaves its sentinel in the key. -/
def do_perf_event (cfg : PsCfg) (pageOffset : Nat) (st : EntryInfo)
    (m : Counts) (t : Tick) : Counts :=
  if ps_threadFilter cfg (tgidOf t.tgid_pid) then
    match mapLookup st t.tgid_pid with
    | none => m
    | some e =>
      let delta := u64sub t.now e.start_ns
      if delta < psDurationNs then m
      else
        let usid := if cfg.kernelOnly then -1 else t.userSidRaw
        let ksid := if cfg.userOnly then -1 else t.kernelSidRaw
        countsIncr m
          { pid := tgidOf t.tgid_pid, kernel_ip := kernelIpCorrection ksid t.ip pageOffset,
            kernel_ret_ip := 0, user_stack_id := usid,
            kernel_stack_id := ksid, name := t.comm }
  else m

/-- An event of a profiling run: a probed function entry, a probed
function return, or a perf timer tick. -/
inductive Ev where
  | entry (tgid_pid id now : Nat)
  | ret (tgid_pid now : Nat)
  | tick (t : Tick)

/-- Evolution of the entryinfo map under one event (ticks never touch
it). -/
def psStepSt (st : EntryInfo) (ev : Ev) : EntryInfo :=
  match ev with
  | Ev.entry tgid_pid id now => ps_trace_entry st tgid_pid id now
  | Ev.ret tgid_pid now => ps_trace_return st tgid_pid now
  | Ev.tick _ => st

/-- Evolution of the full profiler state (entryinfo and counts) under one
event: entries and returns never touch the counts. -/
def psStep (cfg : PsCfg) (pageOffset : Nat) (s : EntryInfo × Counts)
    (ev : Ev) : EntryInfo × Counts :=
  (psStepSt s.1 ev,
   match ev with
   | Ev.tick t => do_perf_event cfg pageOffset s.1 s.2 t
   | _ => s.2)

/-- A whole profiling run from empty tables. -/
def psRun (cfg : PsCfg) (pageOffset : Nat) (evs : List Ev) :
    EntryInfo × Counts :=
  evs.foldl (psStep cfg pageOffset) ([], [])

/-- Whether one tick is aggregated by do_perf_event given the current
entryinfo map: it passes the thread filter and finds a pending entry at
least DURATION_NS old. -/
def ps_tickCounted (cfg : PsCfg) (st : EntryInfo) (t : Tick) : Bool :=
  ps_threadFilter cfg (tgidOf t.tgid_pid) &&
    (match mapLookup st t.tgid_pid with
     | none => false
     | some e => decide (psDurationNs ≤ u64sub t.now e.start_ns))

/-- Number of aggregated ticks along a run of events, tracking the
evolving entryinfo map. -/
def countedTicks (cfg : PsCfg) (st : EntryInfo) : List Ev → Nat
  | [] => 0
  | ev :: rest =>
    (match ev with
     | Ev.tick t => if ps_tickCounted cfg st t then 1 else 0
     | _ => 0) + countedTicks cfg (psStepSt st ev) rest

/-- Modelled from the claim wording of C5: the number of ticks of a run
that pass the thread filter (stack capture always succeeds or substitutes
a sentinel, so every such tick is counted by this reading). -/
def claimedTickCount (cfg : PsCfg) (evs : List Ev) : Nat :=
  (evs.filter (fun ev =>
    match ev with
    | Ev.tick t => ps_threadFilter cfg (tgidOf t.tgid_pid)
    | _ => false)).length

/-- The final readout order of the counts table: ascending by count, as
sorted(counts.items(), key on the value) produces. -/
def sortedCounts (m : Counts) : Counts :=
  m.insertionSort (fun a b => a.2 ≤ b.2)

/-- need_delimiter of profile_slower: the delimiter flag, provided
neither single-scope option is set. -/
def ps_needDelimiter (cfg : PsCfg) : Bool :=
  cfg.delimited && !(cfg.kernelOnly || cfg.userOnly)

/-- One folded output line of profile_slower: the comm, the reversed user
frames, an optional dash, the reversed kernel frames (with the corrected
kernel ip put first when nonzero), then the aggregate count.  A negative
stack id contributes no frames and no placeholder. -/
def ps_foldedLine (cfg : PsCfg) (walk : Nat → List Nat)
    (sym : Nat → Nat → String) (ksym : Nat → String) (k : KeyT)
    (v : Nat) : String :=
  let user_stack := if k.user_stack_id < 0 then []
    else walk k.user_stack_id.toNat
  let kernel_tmp := if k.kernel_stack_id < 0 then []
    else walk k.kernel_stack_id.toNat
  let kernel_stack := if 0 ≤ k.kernel_stack_id then
      (if k.kernel_ip ≠ 0 then [k.kernel_ip] else []) ++ kernel_tmp
    else []
  let doDelim := ps_needDelimiter cfg && !kernel_stack.isEmpty
  let line := [k.name] ++ user_stack.reverse.map (fun a => sym a k.pid) ++
    (if doDelim then ["-"] else []) ++
    kernel_stack.reverse.map (aksym cfg.annotate ksym)
  String.intercalate ";" line ++ " " ++ Nat.repr v

/-- Argument validation of profile_slower named positive_int: it rejects
only values below zero. -/
def positive_int (ival : Int) : Except String Int :=
  if ival < 0 then Except.error "must be positive" else Except.ok ival

/-- Argument validation positive_nonzero_int: additionally rejects
zero. -/
def positive_nonzero_int (ival : Int) : Except String Int :=
  match positive_int ival with
  | Except.error e => Except.error e
  | Except.ok i =>
    if i = 0 then Except.error "must be nonzero" else Except.ok i

instance : IsTotal (KeyT × Nat) (fun a b => a.2 ≤ b.2) :=
  ⟨fun a b => Nat.le_total a.2 b.2⟩

instance : IsTrans (KeyT × Nat) (fun a b => a.2 ≤ b.2) :=
  ⟨fun _ _ _ => Nat.le_trans⟩

theorem strAppendAssoc (a b c : String) : a ++ b ++ c = a ++ (b ++ c) :=
  String.append_assoc a b c

theorem mapLookup_update_self {α : Type} (m : BpfMap α) (k : Nat) (v : α) :
    mapLookup (mapUpdate m k v) k = some v := by
  simp [mapUpdate, mapLookup]

theorem mapLookup_erase_self {α : Type} (m : BpfMap α) (k : Nat) :
    mapLookup (mapErase m k) k = none := by
  induction m with
  | nil => simp [mapErase, mapLookup]
  | cons p rest ih =>
    by_cases h : p.1 = k
    · simpa [mapErase, h] using ih
    · simpa [mapErase, mapLookup, h] using ih

/-- Claim C1: for every return event that finds a matching pending entry,
funcslower emits a finalized record if and only if the computed duration
(u64 difference between the return timestamp and the stored start
timestamp) is at least the configured nanosecond threshold. -/
theorem C1_threshold_inclusive (cfg : FsCfg) (st : EntryInfo)
    (tgid_pid now retval : Nat) (userRaw kernelRaw : Int)
    (ip pageOffset : Nat) (comm : String) (e : EntryT)
    (h : mapLookup st tgid_pid = some e) :
    ((fs_trace_return cfg st tgid_pid now retval userRaw kernelRaw
        ip pageOffset comm).2.isSome = true)
      ↔ cfg.durationNs ≤ u64sub now e.start_ns := by
  simp only [fs_trace_return, h]
  by_cases hlt : u64sub now e.start_ns < cfg.durationNs
  · simp [hlt, Nat.not_le_of_lt hlt]
  · simp [hlt, Nat.le_of_not_lt hlt]

/-- Witness for C1: with threshold 1000000 ns, a pending call started at
time 0 and returning at exactly time 1000000 is reported, while the same
call returning at 999999 is not. -/
theorem C1_threshold_inclusive_witness :
    mapLookup [(5, ⟨0, 0, []⟩)] 5 = some (⟨0, 0, []⟩ : EntryT) ∧
    (((fs_trace_return ⟨none, 1000000, false, false, false⟩
        [(5, ⟨0, 0, []⟩)] 5 1000000 0 0 0 0 0 "w").2.isSome = true)
      ↔ 1000000 ≤ u64sub 1000000 0) ∧
    (fs_trace_return ⟨none, 1000000, false, false, false⟩
        [(5, ⟨0, 0, []⟩)] 5 1000000 0 0 0 0 0 "w").2.isSome = true ∧
    (fs_trace_return ⟨none, 1000000, false, false, false⟩
        [(5, ⟨0, 0, []⟩)] 5 999999 0 0 0 0 0 "w").2.isSome = false :=
  ⟨by decide,
   C1_threshold_inclusive ⟨none, 1000000, false, false, false⟩
     [(5, ⟨0, 0, []⟩)] 5 1000000 0 0 0 0 0 "w" ⟨0, 0, []⟩ (by decide),
   by decide, by decide⟩

/-- Claim C2: a sequence of entry events on one thread followed by one
return resolves to exactly the most recent entry (each entry overwrites
the previous pending call), and afterwards the pending-call table holds
no entry for that thread; an emitted record carries the data of that most
recent entry. -/
theorem C2_last_entry_wins (cfg : FsCfg) (st : EntryInfo) (tgid_pid : Nat)
    (evs : List (Nat × Nat × List Nat)) (l : Nat × Nat × List Nat)
    (now retval : Nat) (userRaw kernelRaw : Int) (ip pageOffset : Nat)
    (comm : String)
    (hf : fs_tgidRejects cfg (tgidOf tgid_pid) = false) :
    mapLookup (fs_runEntries cfg st tgid_pid (evs ++ [l])) tgid_pid
        = some (fs_mkEntry cfg l.1 l.2.1 l.2.2) ∧
    mapLookup (fs_trace_return cfg
        (fs_runEntries cfg st tgid_pid (evs ++ [l])) tgid_pid now retval
        userRaw kernelRaw ip pageOffset comm).1 tgid_pid = none ∧
    (∀ d, (fs_trace_return cfg
        (fs_runEntries cfg st tgid_pid (evs ++ [l])) tgid_pid now retval
        userRaw kernelRaw ip pageOffset comm).2 = some d →
      d.id = l.1 ∧ d.start_ns = l.2.1 ∧
      d.args = (fs_mkEntry cfg l.1 l.2.1 l.2.2).args) := by
  have hrun : fs_runEntries cfg st tgid_pid (evs ++ [l])
      = fs_trace_entry cfg (fs_runEntries cfg st tgid_pid evs) tgid_pid
          l.1 l.2.1 l.2.2 := by
    simp [fs_runEntries, List.foldl_append]
  have hlast : mapLookup (fs_runEntries cfg st tgid_pid (evs ++ [l]))
      tgid_pid = some (fs_mkEntry cfg l.1 l.2.1 l.2.2) := by
    rw [hrun]
    simp [fs_trace_entry, hf, mapLookup_update_self]
  refine ⟨hlast, ?_, ?_⟩
  · simp only [fs_trace_return, hlast]
    by_cases hlt : u64sub now (fs_mkEntry cfg l.1 l.2.1 l.2.2).start_ns
        < cfg.durationNs
    · simp [hlt, mapLookup_erase_self]
    · simp [hlt, mapLookup_erase_self]
  · intro d hd
    simp only [fs_trace_return, hlast] at hd
    by_cases hlt : u64sub now (fs_mkEntry cfg l.1 l.2.1 l.2.2).start_ns
        < cfg.durationNs
    · simp [hlt] at hd
    · simp only [hlt, if_neg hlt] at hd
      cases hd
      exact ⟨rfl, rfl, rfl⟩

/-- Witness for C2: two entries on thread 5 followed by a return; the
return resolves to the second entry and the table is empty for thread 5
afterwards. -/
theorem C2_last_entry_wins_witness :
    fs_tgidRejects ⟨none, 1000000, true, false, false⟩ (tgidOf 5) = false ∧
    (mapLookup (fs_runEntries ⟨none, 1000000, true, false, false⟩ [] 5
        ([(0, 10, [1, 2, 3, 4, 5, 6])] ++ [(1, 20, [7, 8, 9, 10, 11, 12])])) 5
      = some (fs_mkEntry ⟨none, 1000000, true, false, false⟩ 1 20
          [7, 8, 9, 10, 11, 12]) ∧
    mapLookup (fs_trace_return ⟨none, 1000000, true, false, false⟩
        (fs_runEntries ⟨none, 1000000, true, false, false⟩ [] 5
          ([(0, 10, [1, 2, 3, 4, 5, 6])] ++ [(1, 20, [7, 8, 9, 10, 11, 12])]))
        5 2000020 0 0 0 0 0 "w").1 5 = none ∧
    (∀ d, (fs_trace_return ⟨none, 1000000, true, false, false⟩
        (fs_runEntries ⟨none, 1000000, true, false, false⟩ [] 5
          ([(0, 10, [1, 2, 3, 4, 5, 6])] ++ [(1, 20, [7, 8, 9, 10, 11, 12])]))
        5 2000020 0 0 0 0 0 "w").2 = some d →
      d.id = 1 ∧ d.start_ns = 20 ∧
      d.args = (fs_mkEntry ⟨none, 1000000, true, false, false⟩ 1 20
          [7, 8, 9, 10, 11, 12]).args)) :=
  ⟨by decide,
   C2_last_entry_wins ⟨none, 1000000, true, false, false⟩ [] 5
     [(0, 10, [1, 2, 3, 4, 5, 6])] (1, 20, [7, 8, 9, 10, 11, 12])
     2000020 0 0 0 0 0 "w" (by decide)⟩

/-- Claim C3: a return on a thread with no pending entry yields no match
in both tools: no record is emitted and the pending-call table is left
untouched. -/
theorem C3_no_match_no_mutation (cfg : FsCfg) (st : EntryInfo)
    (tgid_pid now retval : Nat) (userRaw kernelRaw : Int)
    (ip pageOffset : Nat) (comm : String)
    (h : mapLookup st tgid_pid = none) :
    fs_trace_return cfg st tgid_pid now retval userRaw kernelRaw
        ip pageOffset comm = (st, none) ∧
    ps_trace_return st tgid_pid now = st := by
  constructor
  · simp [fs_trace_return, h]
  · simp [ps_trace_return, h]

/-- Witness for C3: on a table holding only thread 9, a return on
thread 5 emits nothing and leaves the table unchanged in both tools. -/
theorem C3_no_match_no_mutation_witness :
    mapLookup [(9, (⟨0, 0, []⟩ : EntryT))] 5 = none ∧
    (fs_trace_return ⟨none, 1000000, false, false, false⟩
        [(9, ⟨0, 0, []⟩)] 5 77 0 0 0 0 0 "w"
      = ([(9, ⟨0, 0, []⟩)], none) ∧
    ps_trace_return [(9, ⟨0, 0, []⟩)] 5 77 = [(9, ⟨0, 0, []⟩)]) :=
  ⟨by decide,
   C3_no_match_no_mutation ⟨none, 1000000, false, false, false⟩
     [(9, ⟨0, 0, []⟩)] 5 77 0 0 0 0 0 "w" (by decide)⟩

/-- Claim C10: every folded line of funcslower ends in the field
separator followed by the constant count 1, whatever the record holds. -/
theorem C10_folded_count_one (cfg : FsCfg) (walk : Nat → List Nat)
    (sym : Nat → Nat → String) (ksym : Nat → String) (e : DataT) :
    ∃ body, fs_foldedLine cfg walk sym ksym e = body ++ " 1" := by
  refine ⟨String.intercalate ";" (fs_foldedParts cfg walk sym ksym e), ?_⟩
  rw [fs_foldedLine, strAppendAssoc]
  have h1 : (" " ++ Nat.repr 1 : String) = " 1" := by decide
  rw [h1]

/-- Counterexample to claim C4: a profiler aggregate with a missed
kernel stack (id -ENOMEM), user frames f1 and f2 under thread w and count
3 renders as the folded line without any placeholder token, not as the
line the claim requires. -/
theorem C4_profiler_no_placeholder_counterexample :
    ps_foldedLine ⟨none, false, false, true, false⟩
        (fun i => if i = 0 then [2, 1] else [])
        (fun a _ => "f" ++ Nat.repr a) (fun a => "k" ++ Nat.repr a)
        ⟨7, 0, 0, 0, -12, "w"⟩ 3 = "w;f1;f2 3" ∧
    ("w;f1;f2 3" : String) ≠ "w;f1;f2;[Missed Kernel Stack] 3" := by
  constructor
  · decide
  · decide

/-- Claim C4 as amended: in the latency tracer (funcslower) with both
stack scopes requested, a record whose kernel stack id is the unavailable
sentinel and whose user stack id is valid renders as the folded line of
the thread name, the reversed symbolized user frames, the literal token
[Missed Kernel Stack], and the constant count 1. -/
theorem C4_tracer_folded_placeholder (tf : Option Nat) (dn : Nat)
    (ga : Bool) (walk : Nat → List Nat) (sym : Nat → Nat → String)
    (ksym : Nat → String) (e : DataT)
    (hu : 0 ≤ e.user_stack_id)
    (hk : stack_id_err e.kernel_stack_id = true) :
    fs_foldedLine ⟨tf, dn, ga, true, true⟩ walk sym ksym e =
      String.intercalate ";" (e.name ::
        ((walk e.user_stack_id.toNat).reverse.map
            (fun a => sym a e.tgid_pid) ++ ["[Missed Kernel Stack]"]))
        ++ " 1" := by
  have hk2 : e.kernel_stack_id < 0 ∧ e.kernel_stack_id ≠ -14 := by
    simpa [stack_id_err] using hk
  have hnu : ¬ e.user_stack_id < 0 := Int.not_lt.mpr hu
  have hserr : stack_id_err e.user_stack_id = false := by
    simp [stack_id_err, hnu]
  have hnk : ¬ (0 ≤ e.kernel_stack_id) := Int.not_le.mpr hk2.1
  simp [fs_foldedLine, fs_foldedParts, fs_userStackOf, hserr, hk, hnu, hnk]
  rw [strAppendAssoc]
  have h1 : (" " ++ Nat.repr 1 : String) = " 1" := by decide
  rw [h1]

/-- Witness for the amended C4: a concrete record with kernel stack id
-12 and user frames walking to addresses 2 and 1 renders exactly the line
with the placeholder and count 1. -/
theorem C4_tracer_folded_placeholder_witness :
    0 ≤ (0 : Int) ∧ stack_id_err (-12) = true ∧
    fs_foldedLine ⟨none, 1000000, false, true, true⟩
        (fun i => if i = 0 then [2, 1] else [])
        (fun a _ => "f" ++ Nat.repr a) (fun a => "k" ++ Nat.repr a)
        ⟨0, 7, 0, 0, 0, "w", 0, -12, 0, []⟩
      = String.intercalate ";"
          ((⟨0, 7, 0, 0, 0, "w", 0, -12, 0, []⟩ : DataT).name ::
            (((fun i => if i = 0 then [2, 1] else [])
                ((⟨0, 7, 0, 0, 0, "w", 0, -12, 0, []⟩ : DataT).user_stack_id.toNat)).reverse.map
              (fun a => (fun a _ => "f" ++ Nat.repr a) a
                (⟨0, 7, 0, 0, 0, "w", 0, -12, 0, []⟩ : DataT).tgid_pid)
              ++ ["[Missed Kernel Stack]"])) ++ " 1" :=
  ⟨by decide, by decide,
   C4_tracer_folded_placeholder none 1000000 false
     (fun i => if i = 0 then [2, 1] else [])
     (fun a _ => "f" ++ Nat.repr a) (fun a => "k" ++ Nat.repr a)
     ⟨0, 7, 0, 0, 0, "w", 0, -12, 0, []⟩ (by decide) (by decide)⟩

/-- Claim C9, evaluated at its failing input: with both stack scopes
requested and both stacks present (valid ids, nonempty walks), the
multi-line mode of funcslower prints only the summary line, omitting the
kernel frames, the separator and the user frames. -/
theorem C9_tree_both_scopes_only_summary :
    fs_treeLines ⟨none, 1000000, false, true, true⟩
        (fun i => if i = 0 then [2, 1] else [40, 41])
        (fun a _ => "f" ++ Nat.repr a) (fun a => "k" ++ Nat.repr a) false
        ⟨0, 7, 0, 0, 0, "w", 0, 1, 0, []⟩
      = ["    -                w (7)"] := by
  decide

theorem sumCounts_countsIncr (m : Counts) (k : KeyT) :
    sumCounts (countsIncr m k) = sumCounts m + 1 := by
  induction m with
  | nil => simp [countsIncr, sumCounts]
  | cons p rest ih =>
    by_cases h : p.1 = k
    · simp [countsIncr, h, sumCounts]
      omega
    · simp [countsIncr, h, sumCounts] at ih ⊢
      omega

theorem sumCounts_do_perf_event (cfg : PsCfg) (pageOffset : Nat)
    (st : EntryInfo) (m : Counts) (t : Tick) :
    sumCounts (do_perf_event cfg pageOffset st m t)
      = sumCounts m + (if ps_tickCounted cfg st t then 1 else 0) := by
  by_cases hf : ps_threadFilter cfg (tgidOf t.tgid_pid) = true
  · cases hl : mapLookup st t.tgid_pid with
    | none => simp [do_perf_event, ps_tickCounted, hf, hl]
    | some e =>
      by_cases hd : u64sub t.now e.start_ns < psDurationNs
      · simp [do_perf_event, ps_tickCounted, hf, hl, hd,
              Nat.not_le_of_lt hd]
      · simp [do_perf_event, ps_tickCounted, hf, hl, hd,
              Nat.le_of_not_lt hd, sumCounts_countsIncr]
  · simp at hf
    simp [do_perf_event, ps_tickCounted, hf]

theorem sumCounts_psRun_aux (cfg : PsCfg) (pageOffset : Nat) :
    ∀ (evs : List Ev) (s : EntryInfo × Counts),
      sumCounts (evs.foldl (psStep cfg pageOffset) s).2
        = sumCounts s.2 + countedTicks cfg s.1 evs := by
  intro evs
  induction evs with
  | nil => intro s; simp [countedTicks]
  | cons ev rest ih =>
    intro s
    cases ev with
    | entry a b c =>
      rw [List.foldl_cons, ih]
      simp [countedTicks, psStep, psStepSt]
    | ret a b =>
      rw [List.foldl_cons, ih]
      simp [countedTicks, psStep, psStepSt]
    | tick t =>
      rw [List.foldl_cons, ih]
      have hstep : (psStep cfg pageOffset s (Ev.tick t)).2
          = do_perf_event cfg pageOffset s.1 s.2 t := rfl
      rw [hstep, sumCounts_do_perf_event]
      have h1 : (psStep cfg pageOffset s (Ev.tick t)).1 = s.1 := rfl
      rw [h1]
      simp [countedTicks, psStepSt]
      omega

/-- Counterexample to claim C5: a run of one tick that passes the thread
filter (with stack capture succeeding, raw ids 0) but has no pending
entry produces an aggregate whose counts sum to 0, while the number of
ticks that passed the thread filter is 1. -/
theorem C5_tick_without_entry_counterexample :
    sumCounts ((psRun ⟨none, false, false, false, false⟩ 0
        [Ev.tick ⟨5, 0, "w", 0, 0, 0⟩]).2) = 0 ∧
    claimedTickCount ⟨none, false, false, false, false⟩
        [Ev.tick ⟨5, 0, "w", 0, 0, 0⟩] = 1 ∧
    sumCounts ((psRun ⟨none, false, false, false, false⟩ 0
        [Ev.tick ⟨5, 0, "w", 0, 0, 0⟩]).2)
      ≠ claimedTickCount ⟨none, false, false, false, false⟩
        [Ev.tick ⟨5, 0, "w", 0, 0, 0⟩] := by
  refine ⟨by decide, by decide, by decide⟩

/-- Claim C5 as amended: at the end of a profiling run the aggregate
counts sum to exactly the number of ticks that passed the thread filter
AND found a pending entry at least DURATION_NS old; each such tick is
counted exactly once (stack capture failure substitutes a sentinel into
the key and never drops the tick). -/
theorem C5_counts_sum_eq_counted_ticks (cfg : PsCfg) (pageOffset : Nat)
    (evs : List Ev) :
    sumCounts ((psRun cfg pageOffset evs).2) = countedTicks cfg [] evs := by
  have h := sumCounts_psRun_aux cfg pageOffset evs ([], [])
  simpa [psRun, sumCounts] using h

/-- Claim C6: the final readout of the counts table is its full content,
sorted ascending by count: it is a permutation of the table and every
entry printed earlier has a count at most that of every later one. -/
theorem C6_readout_sorted_ascending (m : Counts) :
    (sortedCounts m).Pairwise (fun a b => a.2 ≤ b.2) ∧
    (sortedCounts m).Perm m :=
  ⟨List.sorted_insertionSort _ m, List.perm_insertionSort _ m⟩

/-- Counterexample to claim C7: with a valid kernel stack id and the
captured ip exactly at the boundary (not below it), the corrected kernel
ip is zero rather than the captured ip: the comparison in the source is
strict. -/
theorem C7_boundary_counterexample :
    kernelIpCorrection 0 4096 4096 = 0 ∧ ¬ (4096 < 4096) ∧
    (4096 : Nat) ≠ 0 := by
  refine ⟨by decide, by decide, by decide⟩

/-- Claim C7 as amended: whenever the kernel stack id is valid, the
corrected kernel ip is zero exactly when the captured ip is at or below
the boundary, and equals the captured ip when strictly above it. -/
theorem C7_kernel_ip_correction (ksid : Int) (ip pageOffset : Nat)
    (h : 0 ≤ ksid) :
    (kernelIpCorrection ksid ip pageOffset = 0 ↔ ip ≤ pageOffset) ∧
    (pageOffset < ip → kernelIpCorrection ksid ip pageOffset = ip) := by
  constructor
  · by_cases hgt : pageOffset < ip
    · simp [kernelIpCorrection, h, hgt]
      omega
    · simp [kernelIpCorrection, h, hgt]
      omega
  · intro hgt
    simp [kernelIpCorrection, h, hgt]

/-- Witness for the amended C7: valid stack id 0, boundary 4096; the
captured ip 5000 is above the boundary and is kept, and it is zero
exactly when 5000 is at most 4096 (it is not). -/
theorem C7_kernel_ip_correction_witness :
    0 ≤ (0 : Int) ∧
    ((kernelIpCorrection 0 5000 4096 = 0 ↔ 5000 ≤ 4096) ∧
     (4096 < 5000 → kernelIpCorrection 0 5000 4096 = 5000)) :=
  ⟨by decide, C7_kernel_ip_correction 0 5000 4096 (by decide)⟩

/-- Counterexample to claim C8: the validator attached to the frequency
option accepts the non-positive value 0 instead of rejecting it. -/
theorem C8_zero_frequency_accepted_counterexample :
    positive_int 0 = Except.ok 0 ∧
    positive_int 0 ≠ Except.error "must be positive" := by
  constructor
  · rfl
  · simp [positive_int]

/-- Claim C8 as amended: the frequency validator positive_int rejects
exactly the negative values (zero is accepted). -/
theorem C8_validator_rejects_only_negative (v : Int) :
    positive_int v = Except.error "must be positive" ↔ v < 0 := by
  by_cases h : v < 0
  · simp [positive_int, h]
  · simp [positive_int, h]
